import Mathlib

/-!
Shallow embedding of the shapeshifter-dispatcher core: `main.go` (flag
validation, mode selection, bindaddr parsing) and the `pt_socks5` mode
module (ClientSetup, ServerSetup, accept loops, clientHandler, copyLoop).

Conventions of the embedding:
- Go `error` values are `Option String` (none = nil) or `Except String α`
  for fallible functions.
- External collaborators (net.Listen outcomes, pt.ResolveAddr,
  pt.ParsePT2ClientParameters, the file system, transport constructors)
  are parameters of the embedded functions, since their code is not part
  of this repository.
- Concurrency (`go` statements) is modelled by recording which tasks are
  spawned and, for copyLoop, by an explicit task-completion order.
-/

namespace Pt

/-- pt.Args from shapeshifter-ipc: a map from parameter name to one or
more string values (Go map[string][]string), modelled as an association
list. -/
def Args := List (String × List String)

/-- Inner per-transport options map (Go map[string]interface{} in
main.go's optionsMap); interface values are modelled as strings. -/
def Opts := List (String × String)

/-- Go map indexing args["key"]: the value list, if the key is present. -/
def argsIndex (args : Args) (key : String) : Option (List String) :=
  (args.find? (fun p => p.1 = key)).map (fun p => p.2)

/-- pt.Args.Get (shapeshifter-ipc): first value for the key, with an ok
flag modelled by Option. -/
def argsGet (args : Args) (key : String) : Option String :=
  (argsIndex args key).bind List.head?

/-- pt.Bindaddr (shapeshifter-ipc): one server bind spec. The resolved
address is kept as its host:port string. -/
structure Bindaddr where
  methodName : String
  addr : String
  options : Option Opts

end Pt

namespace Dispatcher

/-- main.go lines 68-73: the iota mode constants. -/
def socks5 : Nat := 0

def transparentTCP : Nat := 1

def transparentUDP : Nat := 2

def stunUDP : Nat := 3

/-- main.go lines 301-317: determineMode(isTransparent, isUDP). -/
def determineMode (isTransparent : Bool) (isUDP : Bool) : Nat :=
  if isTransparent && isUDP then transparentUDP
  else if isTransparent then transparentTCP
  else if isUDP then stunUDP
  else socks5

/-- main.go lines 319-327: checkIsClient(client, server) returning
(isClient, error); the error component is always nil. -/
def checkIsClient (client : Bool) (server : Bool) : Bool × Option String :=
  if client then (true, none)
  else if server then (false, none)
  else (true, none)

/-- main.go lines 151-155: the fatal branch fires exactly when
checkIsClient returns a non-nil error. -/
def roleCheckFatal (client : Bool) (server : Bool) : Bool :=
  ((checkIsClient client server).2).isSome

/-- Split a character list at the first dash, returning the parts before
and after it. Helper for the Go strings.SplitN(spec, "-", 2) call at
main.go line 429. -/
def splitFirstDash : List Char → Option (List Char × List Char)
  | [] => none
  | c :: cs =>
    if c = '-' then some ([], cs)
    else
      match splitFirstDash cs with
      | none => none
      | some (a, b) => some (c :: a, b)

/-- Go strings.SplitN(s, "-", 2): one-element list when s has no dash,
otherwise the part before the first dash and the remainder. -/
def splitN2 (s : String) : List String :=
  match splitFirstDash s.data with
  | none => [s]
  | some (a, b) => [String.mk a, String.mk b]

/-- main.go lines 426-441: the body of the getServerBindaddrs loop for
one comma-separated spec. pt.ResolveAddr is external (shapeshifter-ipc)
and passed in as resolveAddr; optionsMap is the parsed -options table.
The Go %q verb is modelled as plain double-quoting. -/
def parseBindaddrEntry (resolveAddr : String → Except String String)
    (optionsMap : String → Option Pt.Opts) (spec : String) :
    Except String Pt.Bindaddr :=
  match splitN2 spec with
  | [methodName, addrPart] =>
    match resolveAddr addrPart with
    | Except.error e =>
      Except.error ("-bindaddr: \"" ++ spec ++ "\": " ++ e)
    | Except.ok addr =>
      Except.ok { methodName := methodName, addr := addr,
                  options := optionsMap methodName }
  | _ =>
    Except.error ("-bindaddr: \"" ++ spec ++ "\": doesn't contain \"-\"")

/-- main.go lines 426-441: the loop over all comma-separated specs; the
first malformed entry aborts with its error. -/
def bindaddrLoop (resolveAddr : String → Except String String)
    (optionsMap : String → Option Pt.Opts) :
    List String → Except String (List Pt.Bindaddr)
  | [] => Except.ok []
  | spec :: rest =>
    match parseBindaddrEntry resolveAddr optionsMap spec with
    | Except.error e => Except.error e
    | Except.ok b =>
      match bindaddrLoop resolveAddr optionsMap rest with
      | Except.error e => Except.error e
      | Except.ok bs => Except.ok (b :: bs)

/-- main.go lines 422-452: getServerBindaddrs over the full -bindaddr
string; pt.FilterBindaddrs (external) keeps the specs whose method name
is in the -transports list. -/
def getServerBindaddrs (resolveAddr : String → Except String String)
    (optionsMap : String → Option Pt.Opts) (transportsList : String)
    (bindaddrList : String) : Except String (List Pt.Bindaddr) :=
  match bindaddrLoop resolveAddr optionsMap (bindaddrList.splitOn ",") with
  | Except.error e => Except.error e
  | Except.ok result =>
    Except.ok (result.filter
      (fun b => (transportsList.splitOn ",").contains b.methodName))

/-- main.go lines 160-176: the -options / -optionsFile phase. golog.Fatal
is the Except.error case (process abort); golog.Errorf branches continue.
The file system is modelled by statOk (os.Stat succeeds) and readFile
(ioutil.ReadFile result, none = read error). -/
def optionsPhase (options optionsFile : String) (statOk : String → Bool)
    (readFile : String → Option String) : Except String String :=
  if options ≠ "" ∧ optionsFile ≠ "" then
    Except.error "cannot specify -options and -optionsFile at the same time"
  else if optionsFile ≠ "" then
    if statOk optionsFile then
      match readFile optionsFile with
      | none => Except.ok options
      | some contents => Except.ok contents
    else Except.ok options
  else Except.ok options

/-- main.go lines 160-289: the options phase followed by the client or
server setup; setup (which opens the listeners) runs only when no fatal
configuration error occurred before it. -/
def mainLaunchPhase (options optionsFile : String) (statOk : String → Bool)
    (readFile : String → Option String)
    (setup : String → Bool × List String) :
    Except String (Bool × List String) :=
  match optionsPhase options optionsFile statOk readFile with
  | Except.error e => Except.error e
  | Except.ok opts => Except.ok (setup opts)

end Dispatcher

namespace Strconv

/-- Decimal digit accumulator for the strconv.Atoi model. -/
def digitsVal (acc : Nat) : List Char → Option Nat
  | [] => some acc
  | c :: cs =>
    if c.isDigit then digitsVal (acc * 10 + (c.toNat - 48)) cs else none

/-- Model of Go strconv.Atoi (external standard library): parses an
optionally signed decimal integer, none on any malformed input. -/
def atoi (s : String) : Option Int :=
  match s.data with
  | [] => none
  | '-' :: cs =>
    if cs.isEmpty then none
    else (digitsVal 0 cs).map (fun n => -(n : Int))
  | '+' :: cs =>
    if cs.isEmpty then none
    else (digitsVal 0 cs).map (fun n => (n : Int))
  | cs => (digitsVal 0 cs).map (fun n => (n : Int))

end Strconv

namespace PtSocks5

/-- pt_socks5 ClientSetup (module lines 138-158): for each transport
name, net.Listen("tcp", socksAddr) is attempted; the outcome of the i-th
Listen call is the external parameter listen i (none = bind error, some
ln = the listener). On error pt.CmethodError is emitted and the loop
continues; on success the accept loop is spawned and launched is set. -/
def clientSetupGo (listen : Nat → Option String) :
    Nat → List String → Bool → List String → Bool × List String
  | _, [], launched, listeners => (launched, listeners)
  | i, _ :: names, launched, listeners =>
    match listen i with
    | none => clientSetupGo listen (i + 1) names launched listeners
    | some ln => clientSetupGo listen (i + 1) names true (listeners ++ [ln])

/-- pt_socks5 ClientSetup entry point: launched starts false, listeners
empty; pt.CmethodsDone after the loop has no effect on the result. -/
def ClientSetup (names : List String) (listen : Nat → Option String) :
    Bool × List String :=
  clientSetupGo listen 0 names false []

/-- Outcome of the per-bindaddr switch in ServerSetup (module lines
256-324): resolved means a listen function was bound and the listener is
started; abortKeep is a bare return (keeping the accumulated launched and
listeners); abortReset is an explicit return false, nil. -/
inductive ListenResolution where
  | resolved
  | abortKeep
  | abortReset
deriving DecidableEq

/-- pt_socks5 ServerSetup switch on bindaddr.MethodName (module lines
256-324). strconv.Atoi is the external parameter atoi. In the obfs4 arm
the source tests if err != nil and builds the transport in THAT branch,
aborting in the else branch, so an unparsable iat-mode resolves and a
parsable one aborts; iatModeStr[0] on an empty value slice would panic in
Go and is modelled by headD "". -/
def serverSwitch (args : Pt.Args) (atoi : String → Option Int)
    (name : String) : ListenResolution :=
  match name with
  | "obfs2" => ListenResolution.resolved
  | "obfs4" =>
    match Pt.argsIndex args "cert" with
    | some _cert =>
      match Pt.argsIndex args "iat-mode" with
      | some iatModeStr =>
        match atoi (iatModeStr.headD "") with
        | none => ListenResolution.resolved
        | some _ => ListenResolution.abortKeep
      | none => ListenResolution.abortKeep
    | none => ListenResolution.abortKeep
  | "replicant" =>
    match Pt.argsGet args "config" with
    | none => ListenResolution.abortReset
    | some _ => ListenResolution.resolved
  | "Dust" =>
    match Pt.argsGet args "idPath" with
    | none => ListenResolution.abortReset
    | some _ => ListenResolution.resolved
  | "meeklite" =>
    match Pt.argsGet args "Url" with
    | none => ListenResolution.abortReset
    | some _ =>
      match Pt.argsGet args "Front" with
      | none => ListenResolution.abortReset
      | some _ => ListenResolution.resolved
  | "shadow" =>
    match Pt.argsGet args "password" with
    | none => ListenResolution.abortReset
    | some _ =>
      match Pt.argsGet args "cipherName" with
      | none => ListenResolution.abortReset
      | some _ => ListenResolution.resolved
  | _ => ListenResolution.abortKeep

/-- pt_socks5 ServerSetup loop (module lines 243-346). parsedArgs is the
result of pt.ParsePT2ClientParameters(options) (external), re-examined on
every iteration exactly as in the source; a parse error is a bare return.
A resolved transport listens on bindaddr.Addr (listen returns the
listener directly, with no error path in the source), the accept loop is
spawned and launched is set. -/
def serverSetupGo (parsedArgs : Except String Pt.Args)
    (atoi : String → Option Int) :
    List Pt.Bindaddr → Bool → List String → Bool × List String
  | [], launched, listeners => (launched, listeners)
  | ba :: rest, launched, listeners =>
    match parsedArgs with
    | Except.error _ => (launched, listeners)
    | Except.ok args =>
      match serverSwitch args atoi ba.methodName with
      | ListenResolution.resolved =>
        serverSetupGo parsedArgs atoi rest true (listeners ++ [ba.addr])
      | ListenResolution.abortKeep => (launched, listeners)
      | ListenResolution.abortReset => (false, [])

/-- pt_socks5 ServerSetup entry point. -/
def ServerSetup (parsedArgs : Except String Pt.Args)
    (atoi : String → Option Int) (bindaddrs : List Pt.Bindaddr) :
    Bool × List String :=
  serverSetupGo parsedArgs atoi bindaddrs false []

/-- One result of ln.Accept(): a connection, or an error classified by
whether it is a net.Error and whether it is Temporary(). -/
inductive AcceptResult where
  | conn (c : String)
  | err (isNetError : Bool) (temporary : Bool)
deriving DecidableEq

/-- State of an accept loop after consuming a finite trace of accept
results: the connections handed to handlers (in accept order), whether
the loop closed its listener, and whether it returned (a loop that has
not returned is still blocked on the next accept). -/
structure AcceptLoopResult where
  handled : List String
  listenerClosed : Bool
  returned : Bool
deriving DecidableEq

/-- True for an accept error the loops treat as permanent: a net.Error
whose Temporary() is false. -/
def permanentAcceptError : AcceptResult → Bool
  | AcceptResult.conn _ => false
  | AcceptResult.err isNetError temporary => isNetError && !temporary

/-- pt_socks5 clientAcceptLoop (module lines 160-173): a permanent error
logs, closes the listener and returns; any other error continues; a
connection spawns clientHandler and continues. -/
def clientAcceptLoop : List AcceptResult → AcceptLoopResult
  | [] => { handled := [], listenerClosed := false, returned := false }
  | AcceptResult.conn c :: rest =>
    let r := clientAcceptLoop rest
    { r with handled := c :: r.handled }
  | AcceptResult.err isNetError temporary :: rest =>
    if isNetError && !temporary then
      { handled := [], listenerClosed := true, returned := true }
    else clientAcceptLoop rest

/-- pt_socks5 serverAcceptLoop (module lines 348-359): a permanent error
returns WITHOUT closing the listener (no ln.Close() in this loop); any
other error continues; a connection spawns serverHandler and continues. -/
def serverAcceptLoop : List AcceptResult → AcceptLoopResult
  | [] => { handled := [], listenerClosed := false, returned := false }
  | AcceptResult.conn c :: rest =>
    let r := serverAcceptLoop rest
    { r with handled := c :: r.handled }
  | AcceptResult.err isNetError temporary :: rest =>
    if isNetError && !temporary then
      { handled := [], listenerClosed := false, returned := true }
    else serverAcceptLoop rest

/-- SOCKS replies sent by clientHandler. errorToReplyCode e records a
call socks5.ErrorToReplyCode(e) with the Go error value e it was given
(none = nil), so the reply carries exactly the error it was derived
from. -/
inductive Socks5Reply where
  | succeeded
  | generalFailure
  | errorToReplyCode (e : Option String)
deriving DecidableEq

/-- Observable outcome of clientHandler: the SOCKS replies sent in
order, whether the relay (copyLoop) was entered, and whether the handler
closed the client connection before returning. -/
structure ClientHandlerResult where
  replies : List Socks5Reply
  enteredRelay : Bool
  connClosed : Bool
deriving DecidableEq

/-- Tail of clientHandler after the proxy-dialer step (module lines
222-240). The local variable err still holds the nil handshake error;
line 225 passes THAT variable, not the dial error err2, to
socks5.ErrorToReplyCode. No branch closes the client connection. -/
def clientHandlerAfterProxy (err : Option String)
    (dial : Except String String) (replySucceededErr : Option String) :
    ClientHandlerResult :=
  match dial with
  | Except.error _err2 =>
    { replies := [Socks5Reply.errorToReplyCode err],
      enteredRelay := false, connClosed := false }
  | Except.ok _remote =>
    match replySucceededErr with
    | some _ =>
      { replies := [Socks5Reply.succeeded],
        enteredRelay := false, connClosed := false }
    | none =>
      { replies := [Socks5Reply.succeeded],
        enteredRelay := true, connClosed := false }

/-- pt_socks5 clientHandler (module lines 175-241). handshake is the
socks5.Handshake result, parsedOptions the options2.ParseOptions result,
proxyURI the optional proxy.FromURL outcome, dial the transport.Dial()
outcome, replySucceededErr the error of the success Reply write. -/
def clientHandler (handshake : Except String Unit)
    (parsedOptions : Except String Pt.Args)
    (proxyURI : Option (Except String Unit))
    (dial : Except String String) (replySucceededErr : Option String) :
    ClientHandlerResult :=
  match handshake with
  | Except.error _ =>
    { replies := [], enteredRelay := false, connClosed := false }
  | Except.ok _ =>
    let err : Option String := none
    match parsedOptions with
    | Except.error _ =>
      { replies := [], enteredRelay := false, connClosed := false }
    | Except.ok _args =>
      match proxyURI with
      | some (Except.error _) =>
        { replies := [Socks5Reply.generalFailure],
          enteredRelay := false, connClosed := false }
      | some (Except.ok _) =>
        clientHandlerAfterProxy err dial replySucceededErr
      | none =>
        clientHandlerAfterProxy err dial replySucceededErr

/-- Contents of the buffered errChan of copyLoop (module lines 382-410)
once both directional io.Copy goroutines have sent their result: errAB
is the a-to-b copy's error, errBA the b-to-a copy's, abCompletesFirst
tells which goroutine sent first. -/
def copyLoopChan (errAB errBA : Option String) (abCompletesFirst : Bool) :
    List (Option String) :=
  if abCompletesFirst then [errAB, errBA] else [errBA, errAB]

/-- pt_socks5 copyLoop (module lines 382-410): wg.Wait() joins both copy
goroutines, after which errChan holds both results in completion order;
len(errChan) > 0, so the first element is returned. -/
def copyLoop (errAB errBA : Option String) (abCompletesFirst : Bool) :
    Option String :=
  match copyLoopChan errAB errBA abCompletesFirst with
  | [] => none
  | e :: _ => e

end PtSocks5

/-- Splitting at the first dash of l ++ '-' :: r finds exactly l and r
when l itself has no dash. -/
theorem splitFirstDash_append (l r : List Char) (h : '-' ∉ l) :
    Dispatcher.splitFirstDash (l ++ '-' :: r) = some (l, r) := by
  induction l with
  | nil => simp [Dispatcher.splitFirstDash]
  | cons c cs ih =>
    have hc : c ≠ '-' := fun hh => h (hh ▸ List.mem_cons_self c cs)
    have hcs : '-' ∉ cs := fun hh => h (List.mem_cons_of_mem c hh)
    simp [Dispatcher.splitFirstDash, hc, ih hcs]

/-- A dash-free character list has no first dash. -/
theorem splitFirstDash_none (l : List Char) (h : '-' ∉ l) :
    Dispatcher.splitFirstDash l = none := by
  induction l with
  | nil => rfl
  | cons c cs ih =>
    have hc : c ≠ '-' := fun hh => h (hh ▸ List.mem_cons_self c cs)
    have hcs : '-' ∉ cs := fun hh => h (List.mem_cons_of_mem c hh)
    simp [Dispatcher.splitFirstDash, hc, ih hcs]

/-- splitN2 on a well-formed name-addr spec whose name has no dash. -/
theorem splitN2_wf (name addrStr : String) (h : '-' ∉ name.data) :
    Dispatcher.splitN2 (name ++ "-" ++ addrStr) = [name, addrStr] := by
  have hdata : (name ++ "-" ++ addrStr).data =
      name.data ++ '-' :: addrStr.data := by
    simp [String.data_append]
  unfold Dispatcher.splitN2
  rw [hdata, splitFirstDash_append name.data addrStr.data h]

/-- splitN2 on a spec with no dash returns the one-element list. -/
theorem splitN2_nodash (s : String) (h : '-' ∉ s.data) :
    Dispatcher.splitN2 s = [s] := by
  unfold Dispatcher.splitN2
  rw [splitFirstDash_none s.data h]

/-- C5: determineMode is a deterministic total function mapping the four
boolean combinations to SocksAware (socks5), TransparentTCP, StunAware
(stunUDP) and TransparentUDP, and it always returns one of the four
valid modes (no error path). -/
theorem c5_mode_select :
    Dispatcher.determineMode false false = Dispatcher.socks5 ∧
    Dispatcher.determineMode true false = Dispatcher.transparentTCP ∧
    Dispatcher.determineMode false true = Dispatcher.stunUDP ∧
    Dispatcher.determineMode true true = Dispatcher.transparentUDP ∧
    (∀ t u : Bool,
      Dispatcher.determineMode t u = Dispatcher.socks5 ∨
      Dispatcher.determineMode t u = Dispatcher.transparentTCP ∨
      Dispatcher.determineMode t u = Dispatcher.transparentUDP ∨
      Dispatcher.determineMode t u = Dispatcher.stunUDP) := by
  refine ⟨rfl, rfl, rfl, rfl, ?_⟩
  intro t u
  cases t <;> cases u
  · exact Or.inl rfl
  · exact Or.inr (Or.inr (Or.inr rfl))
  · exact Or.inr (Or.inl rfl)
  · exact Or.inr (Or.inr (Or.inl rfl))

/-- C5 witness: the first of the four cases at the concrete input. -/
theorem c5_witness : Dispatcher.determineMode false false = Dispatcher.socks5 :=
  c5_mode_select.1

/-- C9: checkIsClient never returns an error for any of the four flag
combinations; with neither flag client is the default and with both
flags client wins, so the fatal role-check branch in main can never
fire. -/
theorem c9_role_select :
    Dispatcher.checkIsClient false false = (true, none) ∧
    Dispatcher.checkIsClient true false = (true, none) ∧
    Dispatcher.checkIsClient false true = (false, none) ∧
    Dispatcher.checkIsClient true true = (true, none) ∧
    (∀ c s : Bool, Dispatcher.roleCheckFatal c s = false) := by
  refine ⟨rfl, rfl, rfl, rfl, ?_⟩
  intro c s
  cases c <;> cases s <;> rfl

/-- C9 witness: the fatal branch does not fire at the default inputs. -/
theorem c9_witness : Dispatcher.roleCheckFatal false false = false :=
  c9_role_select.2.2.2.2 false false

/-- C7: when both the inline -options string and -optionsFile are
non-empty, the process fails fatally with the configuration error before
the setup phase runs, so no listener is opened and neither source is
chosen. -/
theorem c7_options_conflict (options optionsFile : String)
    (statOk : String → Bool) (readFile : String → Option String)
    (setup : String → Bool × List String)
    (h1 : options ≠ "") (h2 : optionsFile ≠ "") :
    Dispatcher.mainLaunchPhase options optionsFile statOk readFile setup =
      Except.error "cannot specify -options and -optionsFile at the same time" := by
  unfold Dispatcher.mainLaunchPhase Dispatcher.optionsPhase
  simp [h1, h2]

/-- C7 witness: the conflict at concrete flag values. -/
theorem c7_witness :
    Dispatcher.mainLaunchPhase "opt" "file.json" (fun _ => true)
      (fun _ => none) (fun _ => (false, [])) =
      Except.error "cannot specify -options and -optionsFile at the same time" :=
  c7_options_conflict "opt" "file.json" (fun _ => true) (fun _ => none)
    (fun _ => (false, [])) (by decide) (by decide)

/-- C10: with -optionsFile set and no inline options, a stat failure or
a read failure only logs and leaves the options string unchanged (the
result is ok, not a fatal error), and only a successful read replaces
the options string with the file contents. -/
theorem c10_options_file (optionsFile : String) (statOk : String → Bool)
    (readFile : String → Option String) (h : optionsFile ≠ "") :
    (statOk optionsFile = false →
      Dispatcher.optionsPhase "" optionsFile statOk readFile = Except.ok "") ∧
    (statOk optionsFile = true → readFile optionsFile = none →
      Dispatcher.optionsPhase "" optionsFile statOk readFile = Except.ok "") ∧
    (∀ c, statOk optionsFile = true → readFile optionsFile = some c →
      Dispatcher.optionsPhase "" optionsFile statOk readFile = Except.ok c) := by
  unfold Dispatcher.optionsPhase
  refine ⟨?_, ?_, ?_⟩
  · intro hstat
    simp [h, hstat]
  · intro hstat hread
    simp [h, hstat, hread]
  · intro c hstat hread
    simp [h, hstat, hread]

/-- C10 witness: a missing file at concrete inputs leaves the empty
options string unchanged without aborting. -/
theorem c10_witness :
    Dispatcher.optionsPhase "" "missing.json" (fun _ => false)
      (fun _ => none) = Except.ok "" :=
  (c10_options_file "missing.json" (fun _ => false) (fun _ => none)
    (by decide)).1 rfl

/-- C6: a well-formed bind spec name-host:port (name dash-free) parses
to a Bindaddr whose method name is the part before the separator and
whose address is the resolved host:port; a spec lacking a dash fails
with the error naming the offending substring. -/
theorem c6_bindaddr_parse :
    (∀ (resolveAddr : String → Except String String)
       (optionsMap : String → Option Pt.Opts) (name addrStr addr : String),
      '-' ∉ name.data → resolveAddr addrStr = Except.ok addr →
      Dispatcher.parseBindaddrEntry resolveAddr optionsMap
        (name ++ "-" ++ addrStr) =
        Except.ok { methodName := name, addr := addr,
                    options := optionsMap name }) ∧
    (∀ (resolveAddr : String → Except String String)
       (optionsMap : String → Option Pt.Opts) (spec : String),
      '-' ∉ spec.data →
      Dispatcher.parseBindaddrEntry resolveAddr optionsMap spec =
        Except.error ("-bindaddr: \"" ++ spec ++ "\": doesn't contain \"-\"")) := by
  constructor
  · intro resolveAddr optionsMap name addrStr addr hname hres
    unfold Dispatcher.parseBindaddrEntry
    rw [splitN2_wf name addrStr hname]
    simp [hres]
  · intro resolveAddr optionsMap spec hspec
    unfold Dispatcher.parseBindaddrEntry
    rw [splitN2_nodash spec hspec]

/-- C6 witness: the shadow bind spec at a concrete address parses to
the expected Bindaddr. -/
theorem c6_witness :
    Dispatcher.parseBindaddrEntry (fun s => Except.ok s) (fun _ => none)
      ("shadow" ++ "-" ++ "127.0.0.1:2222") =
      Except.ok { methodName := "shadow", addr := "127.0.0.1:2222",
                  options := none } :=
  c6_bindaddr_parse.1 (fun s => Except.ok s) (fun _ => none)
    "shadow" "127.0.0.1:2222" "127.0.0.1:2222" (by decide) rfl

/-- C2 counterexample: with the a-to-b copy failing and the b-to-a copy
ending cleanly, copyLoop returns the failure when the failing task
completes first and nil when it completes second, so the result is not
independent of the completion order. -/
theorem c2_counterexample :
    PtSocks5.copyLoop (some "connection reset by peer") none true =
      some "connection reset by peer" ∧
    PtSocks5.copyLoop (some "connection reset by peer") none false = none ∧
    PtSocks5.copyLoop (some "connection reset by peer") none true ≠
      PtSocks5.copyLoop (some "connection reset by peer") none false := by
  refine ⟨rfl, rfl, ?_⟩
  decide

/-- C2 amended: copyLoop joins both directional copy tasks and returns
the first result in task-completion order; the returned value is always
one of the two tasks' results, and it is independent of the completion
order exactly when the two results are equal. -/
theorem c2_amended :
    (∀ (errAB errBA : Option String) (o : Bool),
      PtSocks5.copyLoop errAB errBA o = errAB ∨
      PtSocks5.copyLoop errAB errBA o = errBA) ∧
    (∀ errAB errBA : Option String,
      (∀ o o' : Bool,
        PtSocks5.copyLoop errAB errBA o = PtSocks5.copyLoop errAB errBA o') ↔
      errAB = errBA) := by
  constructor
  · intro a b o
    cases o
    · exact Or.inr rfl
    · exact Or.inl rfl
  · intro a b
    constructor
    · intro h
      exact h true false
    · intro h
      subst h
      intro o o'
      cases o <;> cases o' <;> rfl

/-- C2 witness: the first conjunct at a concrete input. -/
theorem c2_witness :
    PtSocks5.copyLoop (some "eof") none true = some "eof" ∨
    PtSocks5.copyLoop (some "eof") none true = none :=
  c2_amended.1 (some "eof") none true

/-- C3: the obfs4 arm of ServerSetup aborts when iat-mode holds a valid
integer (logging the bad-iat-mode error) and resolves when iat-mode is
unparsable, the inverse of the claim and of the code's own log message;
with cert present and iat-mode=0 no listener is started and launched is
false. -/
theorem c3_code_bug :
    PtSocks5.serverSwitch [("cert", ["abc"]), ("iat-mode", ["0"])]
      Strconv.atoi "obfs4" = PtSocks5.ListenResolution.abortKeep ∧
    PtSocks5.serverSwitch [("cert", ["abc"]), ("iat-mode", ["zzz"])]
      Strconv.atoi "obfs4" = PtSocks5.ListenResolution.resolved ∧
    PtSocks5.ServerSetup
      (Except.ok [("cert", ["abc"]), ("iat-mode", ["0"])]) Strconv.atoi
      [{ methodName := "obfs4", addr := "127.0.0.1:2225", options := none }] =
      (false, []) := by
  refine ⟨rfl, rfl, rfl⟩

/-- C4 counterexample: on a permanent accept error the server accept
loop returns while leaving its listener open, unlike the client accept
loop, which closes it. -/
theorem c4_counterexample :
    PtSocks5.serverAcceptLoop [PtSocks5.AcceptResult.err true false] =
      { handled := [], listenerClosed := false, returned := true } ∧
    PtSocks5.clientAcceptLoop [PtSocks5.AcceptResult.err true false] =
      { handled := [], listenerClosed := true, returned := true } :=
  ⟨rfl, rfl⟩

/-- C4 amended: on a permanent accept error (a net.Error that is not
temporary) the client accept loop closes its listener and terminates
while the server accept loop terminates without closing its listener;
on any other accept error both loops continue, and a trace with no
permanent error never terminates either loop. -/
theorem c4_amended :
    (∀ (isNetError temporary : Bool) (rest : List PtSocks5.AcceptResult),
      (isNetError && !temporary) = true →
      PtSocks5.clientAcceptLoop
          (PtSocks5.AcceptResult.err isNetError temporary :: rest) =
        { handled := [], listenerClosed := true, returned := true } ∧
      PtSocks5.serverAcceptLoop
          (PtSocks5.AcceptResult.err isNetError temporary :: rest) =
        { handled := [], listenerClosed := false, returned := true }) ∧
    (∀ (isNetError temporary : Bool) (rest : List PtSocks5.AcceptResult),
      (isNetError && !temporary) = false →
      PtSocks5.clientAcceptLoop
          (PtSocks5.AcceptResult.err isNetError temporary :: rest) =
        PtSocks5.clientAcceptLoop rest ∧
      PtSocks5.serverAcceptLoop
          (PtSocks5.AcceptResult.err isNetError temporary :: rest) =
        PtSocks5.serverAcceptLoop rest) ∧
    (∀ events : List PtSocks5.AcceptResult,
      (∀ e ∈ events, PtSocks5.permanentAcceptError e = false) →
      (PtSocks5.clientAcceptLoop events).returned = false ∧
      (PtSocks5.serverAcceptLoop events).returned = false) := by
  refine ⟨?_, ?_, ?_⟩
  · intro isNetError temporary rest hperm
    constructor
    · simp [PtSocks5.clientAcceptLoop, hperm]
    · simp [PtSocks5.serverAcceptLoop, hperm]
  · intro isNetError temporary rest hperm
    constructor
    · simp [PtSocks5.clientAcceptLoop, hperm]
    · simp [PtSocks5.serverAcceptLoop, hperm]
  · intro events hevents
    induction events with
    | nil => exact ⟨rfl, rfl⟩
    | cons e rest ih =>
      have he := hevents e (List.mem_cons_self e rest)
      have hrest : ∀ x ∈ rest, PtSocks5.permanentAcceptError x = false :=
        fun x hx => hevents x (List.mem_cons_of_mem e hx)
      have ihr := ih hrest
      cases e with
      | conn c =>
        simpa [PtSocks5.clientAcceptLoop, PtSocks5.serverAcceptLoop]
          using ihr
      | err isNetError temporary =>
        have hp : (isNetError && !temporary) = false := he
        simpa [PtSocks5.clientAcceptLoop, PtSocks5.serverAcceptLoop, hp]
          using ihr

/-- C4 witness: a transient-only trace at concrete input terminates
neither loop. -/
theorem c4_witness :
    (PtSocks5.clientAcceptLoop
      [PtSocks5.AcceptResult.err true true]).returned = false ∧
    (PtSocks5.serverAcceptLoop
      [PtSocks5.AcceptResult.err true true]).returned = false :=
  c4_amended.2.2 [PtSocks5.AcceptResult.err true true] (by decide)

/-- C8: when the handshake succeeded and the outbound transport dial
fails, clientHandler replies with socks5.ErrorToReplyCode applied to the
stale nil handshake error instead of the dial error, and it returns
without closing the connection; the relay is never entered, and on dial
success the success reply does precede the relay. -/
theorem c8_code_bug :
    PtSocks5.clientHandler (Except.ok ()) (Except.ok []) none
        (Except.error "connection refused") none =
      { replies := [PtSocks5.Socks5Reply.errorToReplyCode none],
        enteredRelay := false, connClosed := false } ∧
    PtSocks5.Socks5Reply.errorToReplyCode none ≠
      PtSocks5.Socks5Reply.errorToReplyCode (some "connection refused") ∧
    PtSocks5.clientHandler (Except.ok ()) (Except.ok []) none
        (Except.ok "remote") none =
      { replies := [PtSocks5.Socks5Reply.succeeded],
        enteredRelay := true, connClosed := false } := by
  refine ⟨rfl, ?_, rfl⟩
  decide

/-- The ClientSetup loop accumulates exactly the listeners of the
successful Listen calls, and launched becomes true as soon as one
succeeds. -/
theorem clientSetupGo_eq (listen : Nat → Option String) :
    ∀ (names : List String) (i : Nat) (launched : Bool)
      (listeners : List String),
    PtSocks5.clientSetupGo listen i names launched listeners =
      (launched || !((List.range' i names.length).filterMap listen).isEmpty,
       listeners ++ (List.range' i names.length).filterMap listen) := by
  intro names
  induction names with
  | nil =>
    intro i launched ls
    simp [PtSocks5.clientSetupGo, List.range']
  | cons n ns ih =>
    intro i launched ls
    rw [List.length_cons, List.range'_succ]
    cases h : listen i with
    | none =>
      simp [PtSocks5.clientSetupGo, h, ih]
    | some ln =>
      simp [PtSocks5.clientSetupGo, h, ih]

/-- A resolved prefix followed by an abortReset bindaddr makes the
ServerSetup loop return false and nil, whatever was accumulated. -/
theorem serverSetupGo_reset (args : Pt.Args) (atoi : String → Option Int)
    (ba : Pt.Bindaddr) (post : List Pt.Bindaddr)
    (hba : PtSocks5.serverSwitch args atoi ba.methodName =
      PtSocks5.ListenResolution.abortReset) :
    ∀ pre : List Pt.Bindaddr,
      (∀ b ∈ pre, PtSocks5.serverSwitch args atoi b.methodName =
        PtSocks5.ListenResolution.resolved) →
      ∀ (launched : Bool) (listeners : List String),
      PtSocks5.serverSetupGo (Except.ok args) atoi (pre ++ ba :: post)
        launched listeners = (false, []) := by
  intro pre
  induction pre with
  | nil =>
    intro _ launched ls
    simp [PtSocks5.serverSetupGo, hba]
  | cons b pre ih =>
    intro hpre launched ls
    have hb := hpre b (List.mem_cons_self b pre)
    have hrest : ∀ x ∈ pre, PtSocks5.serverSwitch args atoi x.methodName =
        PtSocks5.ListenResolution.resolved :=
      fun x hx => hpre x (List.mem_cons_of_mem b hx)
    simp [PtSocks5.serverSetupGo, hb, ih hrest]

/-- C1 counterexample: with empty parsed options, an obfs2 bindaddr
followed by a shadow bindaddr (shadow's required password parameter
missing) yields launched=false and no listeners, although the obfs2
bindaddr alone succeeds; the failing entry is not skipped, it discards
the sibling's success. -/
theorem c1_counterexample :
    PtSocks5.ServerSetup (Except.ok ([] : Pt.Args)) (fun _ => none)
      [{ methodName := "obfs2", addr := "127.0.0.1:2222", options := none },
       { methodName := "shadow", addr := "127.0.0.1:2223", options := none }] =
      (false, []) ∧
    PtSocks5.ServerSetup (Except.ok ([] : Pt.Args)) (fun _ => none)
      [{ methodName := "obfs2", addr := "127.0.0.1:2222", options := none }] =
      (true, ["127.0.0.1:2222"]) :=
  ⟨rfl, rfl⟩

/-- C1 amended: in ClientSetup a per-name bind failure skips only that
name, the listeners are exactly those of the successful Listen calls and
launched is true iff at least one started; in ServerSetup a BindSpec
whose transport is missing a required parameter (the replicant, Dust,
meeklite and shadow arms) aborts the whole loop and returns
launched=false with no listeners, even when every earlier BindSpec
succeeded, so the remaining BindSpecs are never attempted. -/
theorem c1_amended :
    (∀ (names : List String) (listen : Nat → Option String),
      (PtSocks5.ClientSetup names listen).2 =
        (List.range names.length).filterMap listen ∧
      ((PtSocks5.ClientSetup names listen).1 = true ↔
        (List.range names.length).filterMap listen ≠ [])) ∧
    (∀ (args : Pt.Args) (atoi : String → Option Int)
       (pre : List Pt.Bindaddr) (ba : Pt.Bindaddr)
       (post : List Pt.Bindaddr),
      (∀ b ∈ pre, PtSocks5.serverSwitch args atoi b.methodName =
        PtSocks5.ListenResolution.resolved) →
      PtSocks5.serverSwitch args atoi ba.methodName =
        PtSocks5.ListenResolution.abortReset →
      PtSocks5.ServerSetup (Except.ok args) atoi (pre ++ ba :: post) =
        (false, [])) := by
  constructor
  · intro names listen
    unfold PtSocks5.ClientSetup
    rw [clientSetupGo_eq listen names 0 false [], List.range_eq_range']
    cases hl : (List.range' 0 names.length).filterMap listen with
    | nil => simp [hl]
    | cons x xs => simp [hl]
  · intro args atoi pre ba post hpre hba
    unfold PtSocks5.ServerSetup
    exact serverSetupGo_reset args atoi ba post hba pre hpre false []

/-- C1 witness: both halves of the amended claim at concrete inputs. -/
theorem c1_witness :
    ((PtSocks5.ClientSetup ["obfs2", "shadow"]
        (fun i => if i = 0 then some "l0" else none)).2 =
      (List.range ["obfs2", "shadow"].length).filterMap
        (fun i => if i = 0 then some "l0" else none) ∧
     ((PtSocks5.ClientSetup ["obfs2", "shadow"]
        (fun i => if i = 0 then some "l0" else none)).1 = true ↔
      (List.range ["obfs2", "shadow"].length).filterMap
        (fun i => if i = 0 then some "l0" else none) ≠ [])) ∧
    PtSocks5.ServerSetup (Except.ok ([] : Pt.Args)) (fun _ => none)
      ([{ methodName := "obfs2", addr := "a", options := none }] ++
        { methodName := "shadow", addr := "b", options := none } :: []) =
      (false, []) :=
  ⟨c1_amended.1 ["obfs2", "shadow"] (fun i => if i = 0 then some "l0" else none),
   c1_amended.2 ([] : Pt.Args) (fun _ => none)
     [{ methodName := "obfs2", addr := "a", options := none }]
     { methodName := "shadow", addr := "b", options := none } []
     (by
       intro b hb
       rw [List.mem_singleton] at hb
       subst hb
       rfl)
     rfl⟩
